import Mathlib

/-!
Verification development for the `bvrd_calc_wrapper` repository.

The repository contains two Python source files:

* `src/bvrd_calc_wrapper/calculator.py` — the current API variant:
  a `BVRDCalculator` base (credentials, `_call_api`, `_make_request_body`),
  a `BondCalculator` (chunked `NPV`, `_unpack_response`, derived-metric
  helpers, `add_coupon_rate`) and an `SBBCalculator` (chunked `NPV`,
  `_unpack_response`).
* `src/bvrd_calc_wrapper/BVRDCalculator.py` — the legacy API variant:
  an unchunked `BondCalculator.NPV`, a legacy `BondCalculator._unpack_response`
  and a legacy `SBBCalculator._make_calc_body` that computes a client-side
  "tasa" field.

This file gives a shallow embedding of those functions and proves / refutes
the frozen specification claims about them.  JSON dictionaries are embedded
as ordered association lists (`Obj`), the HTTP transport is an injected
capability `call : List R -> Except E (List Obj)`, and every observable
side effect (requests posted, log lines, in-place mutation of response
objects) is made explicit in the return value of the embedded functions.
-/

/-- JSON-like values appearing in API responses.  Python dictionaries are
ordered association lists, Python lists are `arr`, and `None` is `null`.
Numbers are embedded as rationals. -/
inductive JVal : Type where
  | null : JVal
  | bool : Bool → JVal
  | num : Rat → JVal
  | str : String → JVal
  | arr : List JVal → JVal
  | obj : List (String × JVal) → JVal

/-- A JSON object (Python dict): an ordered association list.  Real Python
dicts have unique keys; lookups below return the first binding. -/
abbrev Obj : Type := List (String × JVal)

/-- Python `d[k]` / `k in d` support: first binding of key `k`, if any. -/
def Obj.get? : Obj → String → Option JVal
  | [], _ => none
  | (k₁, v) :: rest, k => if k₁ = k then some v else Obj.get? rest k

/-- Python `k in d`. -/
def Obj.hasKey (o : Obj) (k : String) : Bool :=
  (Obj.get? o k).isSome

/-- Python `d.get(k, default)`. -/
def Obj.getD (o : Obj) (k : String) (d : JVal) : JVal :=
  (Obj.get? o k).getD d

/-- Python dict assignment `d[k] = v`: replaces the binding of an existing
key in place (keeping its position), otherwise appends a new binding.  On a
dict with unique keys the `List.map` form updates exactly that binding. -/
def Obj.set (o : Obj) (k : String) (v : JVal) : Obj :=
  if Obj.hasKey o k then
    o.map (fun p => if p.1 = k then (k, v) else p)
  else
    o ++ [(k, v)]

/-- Python `d.get(k)` on a nested value: returns the binding if the value is
a dict and has the key, `none` otherwise.  (On a non-dict value Python would
raise `AttributeError`; no claim exercises that case.) -/
def JVal.get? : JVal → String → Option JVal
  | .obj o, k => Obj.get? o k
  | _, _ => none

/-- View a JSON value as a Python list (`for x in v`).  Non-list values give
`[]`; no claim exercises iteration over a non-list. -/
def JVal.asArr : JVal → List JVal
  | .arr l => l
  | _ => []

/-- The in-place write `flujo[key] = idv` performed on each flow dict during
unpacking (`calculator.py` line 123 with key `"id_calculo"`,
`BVRDCalculator.py` line 114 with key `"codisin"`).  Non-dict flow entries
are returned unchanged (Python would raise; not exercised). -/
def tagFlow (key : String) (idv : JVal) : JVal → JVal
  | .obj o => .obj (Obj.set o key idv)
  | v => v

/-- Loop body of `BondCalculator._unpack_response` (`calculator.py`
lines 111-128): the `valuations` / `cashflows` accumulators of the Python
`for item in response` loop are explicit arguments. -/
def BondCalculator.unpack_response_go :
    List Obj → List JVal → List JVal → List JVal × List JVal
  | [], valuations, cashflows => (valuations, cashflows)
  | item :: rest, valuations, cashflows =>
    if Obj.hasKey item "titulo_calculo" then
      let titulo_calculo := Obj.getD item "titulo_calculo" (.obj [])
      let flujos_titulo := Obj.getD item "flujos_titulo" (.arr [])
      let flows := flujos_titulo.asArr
      -- Python: `if flujos_titulo:` then each flow is mutated and appended.
      let tagged :=
        if flows.isEmpty then []
        else flows.map (tagFlow "id_calculo" ((titulo_calculo.get? "id_calculo").getD .null))
      BondCalculator.unpack_response_go rest (valuations ++ [titulo_calculo]) (cashflows ++ tagged)
    else
      BondCalculator.unpack_response_go rest (valuations ++ [.obj item]) cashflows

/-- `BondCalculator._unpack_response` (`calculator.py` lines 101-133).
The trailing `pd.DataFrame(cashflows) if cashflows else pd.DataFrame()`
guard is kept as the `isEmpty` test. -/
def BondCalculator.unpack_response (response : List Obj) : List JVal × List JVal :=
  let (valuations, cashflows) := BondCalculator.unpack_response_go response [] []
  (valuations, if cashflows.isEmpty then [] else cashflows)

/-- Per-item valuation row, following the spec's words (section 4.2): an item
carrying the nested computed-instrument key contributes that sub-object as
its valuation row, otherwise the item itself is the valuation row. -/
def specItemValuation (item : Obj) : JVal :=
  if Obj.hasKey item "titulo_calculo" then Obj.getD item "titulo_calculo" (.obj [])
  else .obj item

/-- Per-item cashflow rows, following the spec's words (section 4.2): an item
carrying the computed-instrument key contributes its nested flows list,
each flow tagged with the parent's correlation id; otherwise no rows. -/
def specItemCashflows (item : Obj) : List JVal :=
  if Obj.hasKey item "titulo_calculo" then
    (Obj.getD item "flujos_titulo" (.arr [])).asArr.map
      (tagFlow "id_calculo"
        (((Obj.getD item "titulo_calculo" (.obj [])).get? "id_calculo").getD .null))
  else []

/-- Loop body of the legacy `BondCalculator._unpack_response`
(`BVRDCalculator.py` lines 106-115): no key-presence guard — every item is
defaulted with `item.get("titulo_calculo", {})` and
`item.get("flujos_titulo", [])`, and each flow is tagged with the parent's
`"codisin"` in place. -/
def LegacyBondCalculator.unpack_response_go :
    List Obj → List JVal → List JVal → List JVal × List JVal
  | [], valuations, cashflows => (valuations, cashflows)
  | item :: rest, valuations, cashflows =>
    let titulo_calculo := Obj.getD item "titulo_calculo" (.obj [])
    let flujos_titulo := Obj.getD item "flujos_titulo" (.arr [])
    let tagged :=
      flujos_titulo.asArr.map (tagFlow "codisin" ((titulo_calculo.get? "codisin").getD .null))
    LegacyBondCalculator.unpack_response_go rest (valuations ++ [titulo_calculo]) (cashflows ++ tagged)

/-- Legacy `BondCalculator._unpack_response` (`BVRDCalculator.py`
lines 93-120).  Total: a missing key never raises, it is silently defaulted. -/
def LegacyBondCalculator.unpack_response (response : List Obj) : List JVal × List JVal :=
  LegacyBondCalculator.unpack_response_go response [] []

/-- `SBBCalculator._unpack_response` (`calculator.py` lines 265-276).
The comprehension `[item["calculo_estructurado"] for item in response]`
raises `KeyError` on the first item missing the key; the valuation list is
built (and may fail) before the flows list, exactly as in Python. -/
def SBBCalculator.unpack_response (response : List Obj) :
    Except String (List JVal × List JVal) := do
  let valuation ← response.mapM (fun item =>
    match Obj.get? item "calculo_estructurado" with
    | some v => Except.ok v
    | none => Except.error "KeyError: calculo_estructurado")
  let flujos := response.flatMap (fun item =>
    (Obj.getD item "flujos_estructurado" (.arr [])).asArr)
  return (valuation, flujos)

/-- Credentials supplied to the calculator constructors
(`BVRDCalculator.__init__`). -/
structure Credentials : Type where
  username : String
  password : String
deriving DecidableEq

/-- The `auth` block of a request body (`_make_request_body`,
`calculator.py` lines 66-70). -/
structure Auth : Type where
  usuario : String
  password : String
deriving DecidableEq

/-- The `config` block of a request body: `{"with_flujos": ...}` for the
bond endpoint (`calculator.py` line 171), `{"with_flujos": ..., "round": ...}`
for the structured endpoint (`calculator.py` lines 323-326). -/
inductive Config : Type where
  | bond (with_flujos : Bool)
  | sbb (with_flujos : Bool) (round : Int)
deriving DecidableEq

/-- A JSON request body.  `auth` is `none` when the literal dict carries no
`"auth"` key (as in `SBBCalculator.NPV`, `calculator.py` lines 321-327). -/
structure RequestBody (R : Type) : Type where
  auth : Option Auth
  calculo : List R
  config : Config

/-- `BVRDCalculator._make_request_body` (`calculator.py` lines 56-73): wraps
a calculation body and a config with the constructor credentials. -/
def BVRDCalculator.make_request_body {R : Type} (c : Credentials)
    (calc_body : List R) (config : Config) : RequestBody R :=
  { auth := some { usuario := c.username, password := c.password },
    calculo := calc_body,
    config := config }

/-- Structured log lines emitted by the calculators, one constructor per
`self.logger.<level>(...)` call site. -/
inductive LogEvent : Type where
  | warningEmptyInput : LogEvent
  | infoProcessing (total_rows chunk_size : Nat) : LogEvent
  | debugSendingChunk (index num_chunks rows : Nat) : LogEvent
  | errorApiCall : LogEvent
  | errorChunkFailed (index : Nat) : LogEvent
deriving DecidableEq

/-- Observable outcome of one `NPV` call: the transport requests issued (in
order, each an endpoint plus a body), the log lines emitted, and either the
returned `(valuation rows, cashflow rows)` pair or the propagated error. -/
structure RunOut (R E : Type) : Type where
  posted : List (String × RequestBody R)
  log : List LogEvent
  result : Except E (List JVal × List JVal)

/-- `BondCalculator.MAX_ROWS_PER_REQUEST` (`calculator.py` line 21). -/
def MAX_ROWS_PER_REQUEST : Nat := 20000

/-- `SBBCalculator.MAX_ROWS_PER_REQUEST` (`calculator.py` line 237). -/
def SBBCalculator.MAX_ROWS_PER_REQUEST : Nat := 100

/-- `math.ceil(total_rows / size)` for positive `size` (`calculator.py`
lines 162 and 314), as exact ceiling division on naturals. -/
def ceilChunks (total_rows size : Nat) : Nat :=
  (total_rows + size - 1) / size

/-- The chunk slices taken by the `NPV` loop (`calculator.py` lines 164-167):
for each `i` below the chunk count, `df.iloc[i*size : i*size + size]`. -/
def chunksOf {R : Type} (size : Nat) (rows : List R) : List (List R) :=
  (List.range (ceilChunks rows.length size)).map
    (fun i => ((rows.drop (i * size)).take size))

/-- The shared chunk loop of `BondCalculator.NPV` (`calculator.py`
lines 164-193) and `SBBCalculator.NPV` (`calculator.py` lines 316-348); the
two differ only in the request body built per chunk and in the unpack
function, which are passed as parameters.  Arguments after `unpack`: the
remaining chunks, the current chunk index `i`, `num_chunks`, and the
`valuation_chunks` / `cashflow_chunks` accumulators.  On a transport error
`_call_api` logs `errorApiCall` and the loop logs `errorChunkFailed` and
propagates; an unpack error (`KeyError`) is likewise caught by the same
`try` and propagated after `errorChunkFailed`. -/
def chunkLoop {R E : Type} (mkBody : List R → String × RequestBody R)
    (call : List R → Except E (List Obj))
    (unpack : List Obj → Except E (List JVal × List JVal)) :
    List (List R) → Nat → Nat → List (List JVal) → List (List JVal) → RunOut R E
  | [], _, _, valuation_chunks, cashflow_chunks =>
    { posted := [],
      log := [],
      result := .ok (valuation_chunks.flatten,
        if cashflow_chunks.isEmpty then [] else cashflow_chunks.flatten) }
  | chunk :: rest, i, num_chunks, valuation_chunks, cashflow_chunks =>
    let body := mkBody chunk
    let dbg := LogEvent.debugSendingChunk (i + 1) num_chunks chunk.length
    match call chunk with
    | .error e =>
      { posted := [body],
        log := [dbg, .errorApiCall, .errorChunkFailed (i + 1)],
        result := .error e }
    | .ok response =>
      match unpack response with
      | .error e =>
        { posted := [body],
          log := [dbg, .errorChunkFailed (i + 1)],
          result := .error e }
      | .ok (valuation, cashflows) =>
        let out := chunkLoop mkBody call unpack rest (i + 1) num_chunks
          (valuation_chunks ++ [valuation])
          (if cashflows.isEmpty then cashflow_chunks else cashflow_chunks ++ [cashflows])
        { posted := body :: out.posted,
          log := dbg :: out.log,
          result := out.result }

/-- `BondCalculator.NPV` (`calculator.py` lines 135-195), over an abstract
row type `R` (the records of the request table, whose contents the loop
never inspects) and the injected transport capability `call`. -/
def BondCalculator.NPVRun {R E : Type} (creds : Credentials)
    (call : List R → Except E (List Obj)) (rows : List R)
    (with_cashflow : Bool) : RunOut R E :=
  if rows.length = 0 then
    { posted := [], log := [.warningEmptyInput], result := .ok ([], []) }
  else
    let out := chunkLoop
      (fun chunk => ("/apicbbvrd",
        BVRDCalculator.make_request_body creds chunk (.bond with_cashflow)))
      call
      (fun response => .ok (BondCalculator.unpack_response response))
      (chunksOf MAX_ROWS_PER_REQUEST rows) 0
      (ceilChunks rows.length MAX_ROWS_PER_REQUEST) [] []
    { posted := out.posted,
      log := .infoProcessing rows.length MAX_ROWS_PER_REQUEST :: out.log,
      result := out.result }

/-- `SBBCalculator.NPV` (`calculator.py` lines 278-350).  The request body
is the inline dict literal of lines 321-327, which carries no `"auth"` key:
`auth := none`.  The unpack step can fail (`KeyError`), so the error type is
fixed to `String`. -/
def SBBCalculator.NPVRun {R : Type} (creds : Credentials)
    (call : List R → Except String (List Obj)) (rows : List R)
    (with_flujos : Bool) (round_precision : Int) : RunOut R String :=
  if rows.length = 0 then
    { posted := [], log := [.warningEmptyInput], result := .ok ([], []) }
  else
    let out := chunkLoop
      (fun chunk => ("/apicbbvrd_estructurado_rwd",
        { auth := none, calculo := chunk,
          config := .sbb with_flujos round_precision }))
      call
      SBBCalculator.unpack_response
      (chunksOf SBBCalculator.MAX_ROWS_PER_REQUEST rows) 0
      (ceilChunks rows.length SBBCalculator.MAX_ROWS_PER_REQUEST) [] []
    { posted := out.posted,
      log := .infoProcessing rows.length SBBCalculator.MAX_ROWS_PER_REQUEST :: out.log,
      result := out.result }

/-- Legacy `BondCalculator.NPV` (`BVRDCalculator.py` lines 122-140): no
zero-row guard and no chunking — one request over the whole row table is
posted unconditionally, then unpacked with the legacy unpack. -/
def LegacyBondCalculator.NPVRun {R E : Type} (creds : Credentials)
    (call : List R → Except E (List Obj)) (rows : List R)
    (with_cashflow : Bool) : RunOut R E :=
  let body := ("/apicbbvrd",
    BVRDCalculator.make_request_body creds rows (.bond with_cashflow))
  match call rows with
  | .error e => { posted := [body], log := [.errorApiCall], result := .error e }
  | .ok response =>
    { posted := [body], log := [],
      result := .ok (LegacyBondCalculator.unpack_response response) }

/-- One cell of a numeric pandas column: `none` is NaN / missing. -/
abbrev Cell : Type := Option Rat

/-- `Series.replace(0, np.nan)` on one cell (`calculator.py`
lines 198 and 207-209). -/
def replaceZero (x : Cell) : Cell :=
  if x = some 0 then none else x

/-- Element-wise pandas division on cells: any NaN operand gives NaN.  After
the `replace(0, np.nan)` guard the divisor is never `some 0`; that
unreachable case is also sent to NaN. -/
def cellDiv (a b : Cell) : Cell :=
  match a, b with
  | some x, some y => if y = 0 then none else some (x / y)
  | _, _ => none

/-- `BondCalculator.current_yield` (`calculator.py` lines 197-198):
`valuation_df["cupon"] / valuation_df["precio_sucio"].replace(0, np.nan)`,
as element-wise division of the two columns. -/
def BondCalculator.current_yield (cupon precio_sucio : List Cell) : List Cell :=
  List.zipWith cellDiv cupon (precio_sucio.map replaceZero)

/-- `BondCalculator.duration_to_convexity` (`calculator.py` lines 206-209):
`modified_duration / convexidad.replace(0, np.nan)`. -/
def BondCalculator.duration_to_convexity (modified_duration convexidad : List Cell) : List Cell :=
  List.zipWith cellDiv modified_duration (convexidad.map replaceZero)

/-- A valuation row as seen by `add_coupon_rate`: the two join-key columns
plus an opaque payload standing for all other columns. -/
structure ValRow : Type where
  id_calculo : Int
  fecha_liquidacion_str : String
  payload : Int
deriving DecidableEq

/-- A cashflow row as seen by `add_coupon_rate`: the two join-key columns
plus the interest-rate column that the merge adds. -/
structure CFRow : Type where
  id_calculo : Int
  fecha_flujo_str : String
  tasa_interes : Rat
deriving DecidableEq

/-- The cashflow rows matching one valuation row's join key
`(id_calculo, fecha_liquidacion_str) = (id_calculo, fecha_flujo_str)`. -/
def matchingFlows (cashflows : List CFRow) (v : ValRow) : List CFRow :=
  cashflows.filter (fun c =>
    c.id_calculo = v.id_calculo ∧ c.fecha_flujo_str = v.fecha_liquidacion_str)

/-- `BondCalculator.add_coupon_rate` (`calculator.py` lines 211-229):
`valuation_df.merge(cashflows_df[[keys, "tasa_interes"]], how="left", ...)`.
Pandas left-merge semantics: left rows in order; each left row is paired
with every matching right row (in right order), or with a single missing
(`none`) right part when nothing matches. -/
def BondCalculator.add_coupon_rate (valuation : List ValRow) (cashflows : List CFRow) :
    List (ValRow × Option CFRow) :=
  valuation.flatMap (fun v =>
    match matchingFlows cashflows v with
    | [] => [(v, none)]
    | ms => ms.map (fun c => (v, some c)))

/-- One row built by the legacy `SBBCalculator._make_calc_body`
(`BVRDCalculator.py` lines 160-175), including the client-computed
`tasa` column. -/
structure SBBLegacyRow : Type where
  titulo_id : String
  tipo_insumo : String
  tipo_monto : String
  insumo : Rat
  monto : Rat
  fecha_liquidacion_spot : String
  dias : Rat
  cesion_cupon : Bool
  base_dias : Rat
  tasa : Rat
deriving DecidableEq

/-- Legacy `SBBCalculator._make_calc_body` (`BVRDCalculator.py`
lines 148-175): zips the parallel columns into rows and computes
`df["tasa"] = ((df["insumo"] - df["monto"]) / df["monto"]) * (base_dias / df["dias"])`
(line 173).  The scalar arguments come first; the five parallel columns are
matched positionally (pandas raises on unequal series lengths; extra
elements of longer columns are dropped here, outside any claim). -/
def SBBCalculator.make_calc_body (input_type amount_type : String)
    (cesion_cupon : Bool) (base_dias : Rat) :
    List String → List Rat → List Rat → List String → List Rat → List SBBLegacyRow
  | isin :: isins, input :: inputs, amount :: amounts, date :: dates, days :: dayss =>
    { titulo_id := isin,
      tipo_insumo := input_type,
      tipo_monto := amount_type,
      insumo := input,
      monto := amount,
      fecha_liquidacion_spot := date,
      dias := days,
      cesion_cupon := cesion_cupon,
      base_dias := base_dias,
      tasa := ((input - amount) / amount) * (base_dias / days) } ::
      SBBCalculator.make_calc_body input_type amount_type cesion_cupon base_dias
        isins inputs amounts dates dayss
  | _, _, _, _, _ => []

/-- Post-state of one response item after `BondCalculator._unpack_response`
(`calculator.py` lines 114-124) has run: on the with-cashflow path each flow
dict in the item's `"flujos_titulo"` list has had the parent's
`"id_calculo"` written into it in place, so the caller-visible item now
holds the tagged flows; items without the key are untouched. -/
def BondCalculator.unpack_effect_item (item : Obj) : Obj :=
  if Obj.hasKey item "titulo_calculo" then
    let titulo_calculo := Obj.getD item "titulo_calculo" (.obj [])
    match Obj.get? item "flujos_titulo" with
    | some (.arr flows) =>
      Obj.set item "flujos_titulo"
        (.arr (flows.map (tagFlow "id_calculo" ((titulo_calculo.get? "id_calculo").getD .null))))
    | _ => item
  else item

/-- Post-state of the whole response list after
`BondCalculator._unpack_response` has run. -/
def BondCalculator.unpack_effect (response : List Obj) : List Obj :=
  response.map BondCalculator.unpack_effect_item

/-- Post-state of one response item after the legacy
`BondCalculator._unpack_response` (`BVRDCalculator.py` lines 106-115) has
run: no key guard — every flow dict of every item is tagged with the
parent's `"codisin"` in place. -/
def LegacyBondCalculator.unpack_effect_item (item : Obj) : Obj :=
  let titulo_calculo := Obj.getD item "titulo_calculo" (.obj [])
  match Obj.get? item "flujos_titulo" with
  | some (.arr flows) =>
    Obj.set item "flujos_titulo"
      (.arr (flows.map (tagFlow "codisin" ((titulo_calculo.get? "codisin").getD .null))))
  | _ => item

/-- Post-state of the whole response list after the legacy
`BondCalculator._unpack_response` has run. -/
def LegacyBondCalculator.unpack_effect (response : List Obj) : List Obj :=
  response.map LegacyBondCalculator.unpack_effect_item

theorem Obj.get?_append (o₁ o₂ : Obj) (k : String) :
    Obj.get? (o₁ ++ o₂) k = (Obj.get? o₁ k).or (Obj.get? o₂ k) := by
  induction o₁ with
  | nil => simp [Obj.get?]
  | cons p rest ih =>
    obtain ⟨k₁, v₁⟩ := p
    by_cases h : k₁ = k
    · simp [Obj.get?, h]
    · simp [Obj.get?, h, ih]

theorem Obj.get?_subst_self (o : Obj) (k : String) (v : JVal)
    (h : (Obj.get? o k).isSome) :
    Obj.get? (o.map (fun p => if p.1 = k then (k, v) else p)) k = some v := by
  induction o with
  | nil => simp [Obj.get?] at h
  | cons p rest ih =>
    obtain ⟨k₁, v₁⟩ := p
    simp only [List.map_cons]
    by_cases hk : k₁ = k
    · subst hk
      rw [if_pos rfl]
      simp [Obj.get?]
    · rw [if_neg hk]
      simp only [Obj.get?, hk, if_false] at h ⊢
      exact ih h

theorem Obj.get?_subst_ne (o : Obj) (k k' : String) (v : JVal) (h : k' ≠ k) :
    Obj.get? (o.map (fun p => if p.1 = k then (k, v) else p)) k' = Obj.get? o k' := by
  induction o with
  | nil => simp
  | cons p rest ih =>
    obtain ⟨k₁, v₁⟩ := p
    simp only [List.map_cons]
    by_cases hk : k₁ = k
    · rw [if_pos hk]
      simp only [Obj.get?]
      have h1 : ¬(k = k') := fun hh => h hh.symm
      have h2 : ¬(k₁ = k') := by rw [hk]; exact h1
      rw [if_neg h1, if_neg h2]
      exact ih
    · rw [if_neg hk]
      simp only [Obj.get?]
      by_cases hk' : k₁ = k'
      · rw [if_pos hk', if_pos hk']
      · rw [if_neg hk', if_neg hk']
        exact ih

theorem Obj.get?_set_self (o : Obj) (k : String) (v : JVal) :
    Obj.get? (Obj.set o k v) k = some v := by
  unfold Obj.set Obj.hasKey
  by_cases h : (Obj.get? o k).isSome
  · rw [if_pos h]
    exact Obj.get?_subst_self o k v h
  · rw [if_neg h, Obj.get?_append]
    have h0 : Obj.get? o k = none := Option.not_isSome_iff_eq_none.mp h
    simp [h0, Obj.get?]

theorem Obj.get?_set_ne (o : Obj) (k k' : String) (v : JVal) (h : k' ≠ k) :
    Obj.get? (Obj.set o k v) k' = Obj.get? o k' := by
  unfold Obj.set Obj.hasKey
  by_cases hs : (Obj.get? o k).isSome
  · rw [if_pos hs]
    exact Obj.get?_subst_ne o k k' v h
  · rw [if_neg hs, Obj.get?_append]
    have hkk : ¬(k = k') := fun hh => h hh.symm
    simp only [Obj.get?, hkk, if_false]
    exact Option.or_none

theorem isEmptyGuard_id {α : Type} (l : List α) :
    (if l.isEmpty then ([] : List α) else l) = l := by
  cases l <;> simp

theorem isEmptyGuard_map {α β : Type} (l : List α) (f : α → β) :
    (if l.isEmpty then ([] : List β) else l.map f) = l.map f := by
  cases l <;> simp

theorem appendGuard_flatten {α : Type} (acc : List (List α)) (l : List α) :
    (if l.isEmpty then acc else acc ++ [l]).flatten = acc.flatten ++ l := by
  cases l <;> simp

theorem BondCalculator.unpack_response_go_eq (items : List Obj) :
    ∀ vacc cacc : List JVal,
      BondCalculator.unpack_response_go items vacc cacc =
        (vacc ++ items.map specItemValuation, cacc ++ items.flatMap specItemCashflows) := by
  induction items with
  | nil =>
    intro vacc cacc
    simp [BondCalculator.unpack_response_go]
  | cons item rest ih =>
    intro vacc cacc
    by_cases hk : Obj.hasKey item "titulo_calculo"
    · simp only [BondCalculator.unpack_response_go, hk, if_true, ih, List.map_cons,
        List.flatMap_cons, specItemValuation, specItemCashflows]
      rw [isEmptyGuard_map]
      simp [List.append_assoc]
    · simp only [BondCalculator.unpack_response_go, hk, if_false, ih, List.map_cons,
        List.flatMap_cons, specItemValuation, specItemCashflows]
      simp [hk, List.append_assoc]

theorem BondCalculator.unpack_response_eq (response : List Obj) :
    BondCalculator.unpack_response response =
      (response.map specItemValuation, response.flatMap specItemCashflows) := by
  unfold BondCalculator.unpack_response
  rw [BondCalculator.unpack_response_go_eq]
  simp [isEmptyGuard_id]

theorem isEmptyGuard_flatten {α : Type} (l : List (List α)) :
    (if l.isEmpty then ([] : List α) else l.flatten) = l.flatten := by
  cases l <;> simp

theorem ceilChunks_le_mul (n size : Nat) (hs : 0 < size) :
    n ≤ ceilChunks n size * size := by
  unfold ceilChunks
  have h := Nat.lt_div_mul_add (a := n + size - 1) hs
  generalize (n + size - 1) / size * size = A at h ⊢
  omega

theorem mul_add_le_of_lt_ceilChunks (n size i : Nat) (hs : 0 < size)
    (h : i + 1 < ceilChunks n size) : i * size + size ≤ n := by
  unfold ceilChunks at h
  have h1 : (n + size - 1) / size * size ≤ n + size - 1 := Nat.div_mul_le_self _ _
  have h2 : (i + 1 + 1) * size ≤ (n + size - 1) / size * size :=
    Nat.mul_le_mul_right size h
  have h3 : (i + 1 + 1) * size = i * size + size + size := by ring
  generalize (n + size - 1) / size * size = A at h1 h2
  generalize i * size = B at h2 h3 ⊢
  omega

theorem chunksOf_length {R : Type} (size : Nat) (rows : List R) :
    (chunksOf size rows).length = ceilChunks rows.length size := by
  simp [chunksOf]

theorem chunksOf_flatten_take {R : Type} (size : Nat) (rows : List R) (m : Nat) :
    ((List.range m).map (fun i => ((rows.drop (i * size)).take size))).flatten
      = rows.take (m * size) := by
  induction m with
  | zero => simp
  | succ m ih =>
    rw [List.range_succ, List.map_append, List.flatten_append, ih]
    simp only [List.map_cons, List.map_nil, List.flatten_cons, List.flatten_nil,
      List.append_nil]
    rw [Nat.succ_mul, List.take_add]

theorem chunksOf_flatten {R : Type} (size : Nat) (rows : List R) (hs : 0 < size) :
    (chunksOf size rows).flatten = rows := by
  unfold chunksOf
  rw [chunksOf_flatten_take]
  exact List.take_of_length_le (ceilChunks_le_mul rows.length size hs)

theorem chunksOf_get {R : Type} (size : Nat) (rows : List R)
    (i : Nat) (h : i < (chunksOf size rows).length) :
    (chunksOf size rows).get ⟨i, h⟩ = (rows.drop (i * size)).take size := by
  simp [chunksOf]

theorem chunksOf_get_length_full {R : Type} (size : Nat) (rows : List R) (hs : 0 < size)
    (i : Nat) (h : i < (chunksOf size rows).length)
    (hlast : i + 1 < (chunksOf size rows).length) :
    ((chunksOf size rows).get ⟨i, h⟩).length = size := by
  rw [chunksOf_get]
  rw [chunksOf_length] at hlast
  have hfull : i * size + size ≤ rows.length :=
    mul_add_le_of_lt_ceilChunks rows.length size i hs hlast
  simp only [List.length_take, List.length_drop]
  omega

theorem chunksOf_map_length {R : Type} (size : Nat) (rows : List R) :
    (chunksOf size rows).map List.length =
      (List.range (ceilChunks rows.length size)).map
        (fun i => min size (rows.length - i * size)) := by
  simp [chunksOf, List.map_map, Function.comp, List.length_take, List.length_drop]

theorem chunkLoop_bond_pointwise_posted {R E : Type}
    (mkBody : List R → String × RequestBody R) (api : R → Obj) :
    ∀ (chunks : List (List R)) (i n : Nat) (vacc cacc : List (List JVal)),
      (chunkLoop mkBody (fun c => (.ok (c.map api) : Except E (List Obj)))
          (fun resp => .ok (BondCalculator.unpack_response resp))
          chunks i n vacc cacc).posted
        = chunks.map mkBody := by
  intro chunks
  induction chunks with
  | nil =>
    intro i n vacc cacc
    simp [chunkLoop]
  | cons chunk rest ih =>
    intro i n vacc cacc
    have hu : BondCalculator.unpack_response (List.map api chunk)
        = (List.map specItemValuation (List.map api chunk),
           (List.map api chunk).flatMap specItemCashflows) :=
      BondCalculator.unpack_response_eq _
    simp only [chunkLoop, hu, List.map_cons]
    rw [ih]

theorem chunkLoop_bond_pointwise_result {R E : Type}
    (mkBody : List R → String × RequestBody R) (api : R → Obj) :
    ∀ (chunks : List (List R)) (i n : Nat) (vacc cacc : List (List JVal)),
      (chunkLoop mkBody (fun c => (.ok (c.map api) : Except E (List Obj)))
          (fun resp => .ok (BondCalculator.unpack_response resp))
          chunks i n vacc cacc).result
        = .ok (vacc.flatten ++ chunks.flatten.map (fun r => specItemValuation (api r)),
               cacc.flatten ++ chunks.flatten.flatMap (fun r => specItemCashflows (api r))) := by
  intro chunks
  induction chunks with
  | nil =>
    intro i n vacc cacc
    simp [chunkLoop, isEmptyGuard_flatten]
  | cons chunk rest ih =>
    intro i n vacc cacc
    have hu : BondCalculator.unpack_response (List.map api chunk)
        = (List.map specItemValuation (List.map api chunk),
           (List.map api chunk).flatMap specItemCashflows) :=
      BondCalculator.unpack_response_eq _
    simp only [chunkLoop, hu]
    rw [ih]
    simp only [List.flatten_append, List.flatten_cons, List.flatten_nil, List.append_nil,
      List.map_append, List.flatMap_append, List.append_assoc, List.map_map]
    rw [appendGuard_flatten]
    simp [List.flatMap_map, Function.comp, List.append_assoc]

theorem chunkLoop_fail_prefix {R E : Type}
    (mkBody : List R → String × RequestBody R)
    (call : List R → Except E (List Obj))
    (unpack : List Obj → Except E (List JVal × List JVal))
    (e : E) (ck : List R) (hck : call ck = .error e) :
    ∀ (pre : List (List R)) (rest : List (List R)) (i n : Nat)
      (vacc cacc : List (List JVal)),
      (∀ c ∈ pre, ∃ r v cf, call c = .ok r ∧ unpack r = .ok (v, cf)) →
      (chunkLoop mkBody call unpack (pre ++ ck :: rest) i n vacc cacc).posted
          = (pre ++ [ck]).map mkBody ∧
      (chunkLoop mkBody call unpack (pre ++ ck :: rest) i n vacc cacc).result
          = .error e ∧
      LogEvent.errorChunkFailed (i + pre.length + 1)
          ∈ (chunkLoop mkBody call unpack (pre ++ ck :: rest) i n vacc cacc).log := by
  intro pre
  induction pre with
  | nil =>
    intro rest i n vacc cacc _
    simp only [List.nil_append, chunkLoop, hck]
    refine ⟨by simp, by simp, by simp⟩
  | cons c pre ih =>
    intro rest i n vacc cacc hpre
    obtain ⟨r, v, cf, hcall, hunp⟩ := hpre c (by simp)
    simp only [List.cons_append, chunkLoop, hcall, hunp]
    obtain ⟨h1, h2, h3⟩ := ih rest (i + 1) n (vacc ++ [v])
      (if cf.isEmpty then cacc else cacc ++ [cf])
      (fun c' hc' => hpre c' (by simp [hc']))
    refine ⟨by simp [h1], h2, ?_⟩
    have harith : i + (c :: pre).length + 1 = (i + 1) + pre.length + 1 := by
      simp only [List.length_cons]
      omega
    rw [harith]
    exact List.mem_cons_of_mem _ h3

theorem chunkLoop_posted_mem {R E : Type}
    (mkBody : List R → String × RequestBody R)
    (call : List R → Except E (List Obj))
    (unpack : List Obj → Except E (List JVal × List JVal)) :
    ∀ (chunks : List (List R)) (i n : Nat) (vacc cacc : List (List JVal))
      (b : String × RequestBody R),
      b ∈ (chunkLoop mkBody call unpack chunks i n vacc cacc).posted →
      ∃ c ∈ chunks, b = mkBody c := by
  intro chunks
  induction chunks with
  | nil =>
    intro i n vacc cacc b hb
    simp [chunkLoop] at hb
  | cons chunk rest ih =>
    intro i n vacc cacc b hb
    simp only [chunkLoop] at hb
    cases hcall : call chunk with
    | error e =>
      rw [hcall] at hb
      simp at hb
      exact ⟨chunk, by simp, hb⟩
    | ok r =>
      simp only [hcall] at hb
      cases hunp : unpack r with
      | error e =>
        simp only [hunp] at hb
        simp at hb
        exact ⟨chunk, by simp, hb⟩
      | ok vc =>
        obtain ⟨v, cf⟩ := vc
        simp only [hunp] at hb
        simp only [List.mem_cons] at hb
        cases hb with
        | inl h => exact ⟨chunk, by simp, h⟩
        | inr h =>
          obtain ⟨c, hc, hbc⟩ := ih _ _ _ _ _ h
          exact ⟨c, by simp [hc], hbc⟩

/-- Claim C1: for every non-empty input row table of n rows,
`BondCalculator.NPV` splits the rows into ceil(n / MAX_ROWS_PER_REQUEST)
consecutive fixed-size chunks (every chunk full except possibly the last),
issues one request per chunk in order, and — when the remote engine answers
each row with one result item (`api` applied pointwise) — the concatenation
of the per-chunk valuation tables equals the result of one unchunked
request over the same rows: row count is conserved and original row order
is preserved.  In particular 45,000 rows with chunk size 20,000 give
exactly 3 chunks of 20,000 / 20,000 / 5,000 rows. -/
theorem claim_C1_chunked_npv_matches_unchunked {R : Type}
    (creds : Credentials) (api : R → Obj) (rows : List R) (with_cashflow : Bool)
    (hne : rows ≠ []) :
    (chunksOf MAX_ROWS_PER_REQUEST rows).length
        = ceilChunks rows.length MAX_ROWS_PER_REQUEST ∧
    (chunksOf MAX_ROWS_PER_REQUEST rows).flatten = rows ∧
    (∀ (i : Nat) (h : i < (chunksOf MAX_ROWS_PER_REQUEST rows).length),
        i + 1 < (chunksOf MAX_ROWS_PER_REQUEST rows).length →
        ((chunksOf MAX_ROWS_PER_REQUEST rows).get ⟨i, h⟩).length
          = MAX_ROWS_PER_REQUEST) ∧
    (BondCalculator.NPVRun creds
        (fun c => (.ok (c.map api) : Except Unit (List Obj))) rows with_cashflow).posted
        = (chunksOf MAX_ROWS_PER_REQUEST rows).map
            (fun c => ("/apicbbvrd",
              BVRDCalculator.make_request_body creds c (.bond with_cashflow))) ∧
    (BondCalculator.NPVRun creds
        (fun c => (.ok (c.map api) : Except Unit (List Obj))) rows with_cashflow).result
        = .ok (BondCalculator.unpack_response (rows.map api)) ∧
    (BondCalculator.unpack_response (rows.map api)).1
        = rows.map (fun r => specItemValuation (api r)) ∧
    (BondCalculator.unpack_response (rows.map api)).1.length = rows.length ∧
    (rows.length = 45000 →
      (chunksOf MAX_ROWS_PER_REQUEST rows).map List.length = [20000, 20000, 5000]) := by
  have hpos : 0 < MAX_ROWS_PER_REQUEST := by decide
  have h0 : ¬(rows.length = 0) := by simpa using hne
  have hspec : (BondCalculator.unpack_response (rows.map api)).1
      = rows.map (fun r => specItemValuation (api r)) := by
    rw [BondCalculator.unpack_response_eq]
    simp [List.map_map, Function.comp]
  refine ⟨chunksOf_length _ _, chunksOf_flatten _ _ hpos,
    (fun i h hl => chunksOf_get_length_full _ _ hpos i h hl), ?_, ?_, hspec, ?_, ?_⟩
  · simp only [BondCalculator.NPVRun, h0, if_neg, if_false]
    exact chunkLoop_bond_pointwise_posted _ _ _ _ _ _ _
  · simp only [BondCalculator.NPVRun, h0, if_neg, if_false]
    rw [chunkLoop_bond_pointwise_result]
    rw [chunksOf_flatten _ _ hpos, BondCalculator.unpack_response_eq]
    simp [List.map_map, List.flatMap_map, Function.comp]
  · rw [hspec]
    simp
  · intro h45
    rw [chunksOf_map_length, h45]
    decide

/-- Witness for C1 at a concrete 45,000-row input. -/
theorem claim_C1_witness :
    (chunksOf MAX_ROWS_PER_REQUEST (List.replicate 45000 (0 : Nat))).map List.length
      = [20000, 20000, 5000] :=
  (claim_C1_chunked_npv_matches_unchunked ⟨"u", "p"⟩ (fun _ => ([] : Obj))
    (List.replicate 45000 0) false
    (by
      intro h
      have h1 := congrArg List.length h
      rw [List.length_replicate] at h1
      simp at h1)).2.2.2.2.2.2.2 (List.length_replicate 45000 0)

/-- Claim C2: for every input and every chunk index k at which the posted
request fails, `NPV` (bond and SBB variants of `calculator.py`) issues no
request for any chunk after k, logs the failing chunk index (1-based, as
`Chunk k+1 failed`), and propagates the error; rows accumulated from chunks
before k are discarded — the result is the bare error, all-or-nothing.
The failing position is given as a decomposition `pre ++ ck :: rest` of the
chunk list with every chunk of `pre` (the first k chunks) succeeding. -/
theorem claim_C2_failfast_abort :
    (∀ (R E : Type) (creds : Credentials) (call : List R → Except E (List Obj))
        (rows : List R) (with_cashflow : Bool) (e : E)
        (pre rest : List (List R)) (ck : List R),
        chunksOf MAX_ROWS_PER_REQUEST rows = pre ++ ck :: rest →
        (∀ c ∈ pre, ∃ r, call c = .ok r) →
        call ck = .error e →
        rows ≠ [] →
        (BondCalculator.NPVRun creds call rows with_cashflow).posted
            = (pre ++ [ck]).map (fun c => ("/apicbbvrd",
                BVRDCalculator.make_request_body creds c (.bond with_cashflow))) ∧
        (BondCalculator.NPVRun creds call rows with_cashflow).result = .error e ∧
        LogEvent.errorChunkFailed (pre.length + 1)
            ∈ (BondCalculator.NPVRun creds call rows with_cashflow).log) ∧
    (∀ (R : Type) (creds : Credentials) (call : List R → Except String (List Obj))
        (rows : List R) (with_flujos : Bool) (rp : Int) (e : String)
        (pre rest : List (List R)) (ck : List R),
        chunksOf SBBCalculator.MAX_ROWS_PER_REQUEST rows = pre ++ ck :: rest →
        (∀ c ∈ pre, ∃ r vc, call c = .ok r ∧ SBBCalculator.unpack_response r = .ok vc) →
        call ck = .error e →
        rows ≠ [] →
        (SBBCalculator.NPVRun creds call rows with_flujos rp).posted
            = (pre ++ [ck]).map (fun c => ("/apicbbvrd_estructurado_rwd",
                { auth := none, calculo := c, config := .sbb with_flujos rp })) ∧
        (SBBCalculator.NPVRun creds call rows with_flujos rp).result = .error e ∧
        LogEvent.errorChunkFailed (pre.length + 1)
            ∈ (SBBCalculator.NPVRun creds call rows with_flujos rp).log) := by
  constructor
  · intro R E creds call rows with_cashflow e pre rest ck hchunks hpre hck hne
    have h0 : ¬(rows.length = 0) := by simpa using hne
    simp only [BondCalculator.NPVRun, h0, if_neg, if_false]
    rw [hchunks]
    obtain ⟨h1, h2, h3⟩ := chunkLoop_fail_prefix
      (fun c => ("/apicbbvrd", BVRDCalculator.make_request_body creds c (.bond with_cashflow)))
      call (fun resp => .ok (BondCalculator.unpack_response resp)) e ck hck
      pre rest 0 (ceilChunks rows.length MAX_ROWS_PER_REQUEST) [] []
      (fun c hc => by
        obtain ⟨r, hr⟩ := hpre c hc
        exact ⟨r, (BondCalculator.unpack_response r).1,
          (BondCalculator.unpack_response r).2, hr, rfl⟩)
    refine ⟨h1, h2, ?_⟩
    have : (0 : Nat) + pre.length + 1 = pre.length + 1 := by omega
    rw [this] at h3
    exact List.mem_cons_of_mem _ h3
  · intro R creds call rows with_flujos rp e pre rest ck hchunks hpre hck hne
    have h0 : ¬(rows.length = 0) := by simpa using hne
    simp only [SBBCalculator.NPVRun, h0, if_neg, if_false]
    rw [hchunks]
    obtain ⟨h1, h2, h3⟩ := chunkLoop_fail_prefix
      (fun c => ("/apicbbvrd_estructurado_rwd",
        { auth := none, calculo := c, config := .sbb with_flujos rp }))
      call SBBCalculator.unpack_response e ck hck
      pre rest 0 (ceilChunks rows.length SBBCalculator.MAX_ROWS_PER_REQUEST) [] []
      (fun c hc => by
        obtain ⟨r, vc, hr, hvc⟩ := hpre c hc
        exact ⟨r, vc.1, vc.2, hr, hvc⟩)
    refine ⟨h1, h2, ?_⟩
    have : (0 : Nat) + pre.length + 1 = pre.length + 1 := by omega
    rw [this] at h3
    exact List.mem_cons_of_mem _ h3

/-- Witness for C2: a one-chunk input whose only request fails aborts both
calculators with the transport error propagated. -/
theorem claim_C2_witness :
    (BondCalculator.NPVRun ⟨"u", "p"⟩
        (fun _ => (Except.error 7 : Except Nat (List Obj))) [(0 : Nat)] false).result
      = .error 7 ∧
    (SBBCalculator.NPVRun ⟨"u", "p"⟩
        (fun _ => (Except.error "down" : Except String (List Obj))) [(0 : Nat)] false 6).result
      = .error "down" :=
  ⟨(claim_C2_failfast_abort.1 Nat Nat ⟨"u", "p"⟩ _ [0] false 7 [] [] [0]
      rfl (by simp) rfl (by simp)).2.1,
   (claim_C2_failfast_abort.2 Nat ⟨"u", "p"⟩ _ [0] false 6 "down" [] [] [0]
      rfl (by simp) rfl (by simp)).2.1⟩

/-- Counterexample to claim C3 as stated: the legacy `BondCalculator.NPV`
(`BVRDCalculator.py` lines 122-140), one of the NPV implementations the
claim covers, issues a transport call even for a zero-row input (and logs
no warning): its posted-request trace has length 1, not 0. -/
theorem claim_C3_counterexample :
    (LegacyBondCalculator.NPVRun ⟨"u", "p"⟩
        (fun _ => (Except.ok [] : Except String (List Obj)))
        ([] : List Nat) false).posted.length = 1 := rfl

/-- Claim C3 amended: the `calculator.py` NPV methods (both calculators)
return two empty tables, log exactly the empty-input warning and post no
request on zero-row input; the legacy-variant bond NPV instead posts
exactly one request (over the empty row table) and never logs the
empty-input warning. -/
theorem claim_C3_empty_input_behavior :
    (∀ (R E : Type) (creds : Credentials) (call : List R → Except E (List Obj))
        (w : Bool),
        BondCalculator.NPVRun creds call ([] : List R) w
          = { posted := [], log := [.warningEmptyInput], result := .ok ([], []) }) ∧
    (∀ (R : Type) (creds : Credentials) (call : List R → Except String (List Obj))
        (w : Bool) (rp : Int),
        SBBCalculator.NPVRun creds call ([] : List R) w rp
          = { posted := [], log := [.warningEmptyInput], result := .ok ([], []) }) ∧
    (∀ (R E : Type) (creds : Credentials) (call : List R → Except E (List Obj))
        (w : Bool),
        (LegacyBondCalculator.NPVRun creds call ([] : List R) w).posted
          = [("/apicbbvrd", BVRDCalculator.make_request_body creds [] (.bond w))] ∧
        LogEvent.warningEmptyInput
          ∉ (LegacyBondCalculator.NPVRun creds call ([] : List R) w).log) := by
  refine ⟨?_, ?_, ?_⟩
  · intro R E creds call w
    simp [BondCalculator.NPVRun]
  · intro R creds call w rp
    simp [SBBCalculator.NPVRun]
  · intro R E creds call w
    unfold LegacyBondCalculator.NPVRun
    cases h : call [] <;> simp [h]

/-- Counterexample to claim C4 as stated: the current `SBBCalculator.NPV`
builds its request body inline (`calculator.py` lines 321-327) with no
`auth` block at all — the posted body's auth field is `none`, not the
constructor credentials. -/
theorem claim_C4_counterexample :
    ((SBBCalculator.NPVRun ⟨"u", "p"⟩
        (fun _ => (Except.error "e" : Except String (List Obj)))
        [(0 : Nat)] false 6).posted.map (fun b => b.2.auth)) = [none] ∧
    (none : Option Auth) ≠ some { usuario := "u", password := "p" } := by
  refine ⟨rfl, by simp⟩

/-- Claim C4 amended: `_make_request_body` is a pure function producing
exactly the shape auth/calculo/config with the constructor credentials in
the auth block; every request body posted by `BondCalculator.NPV` (per
chunk) and by the legacy bond NPV has that shape; but every body posted by
the current `SBBCalculator.NPV` is the inline `{calculo, config}` dict with
no auth block. -/
theorem claim_C4_request_body_shape :
    (∀ (R : Type) (creds : Credentials) (calc_body : List R) (config : Config),
        BVRDCalculator.make_request_body creds calc_body config
          = { auth := some { usuario := creds.username, password := creds.password },
              calculo := calc_body, config := config }) ∧
    (∀ (R E : Type) (creds : Credentials) (call : List R → Except E (List Obj))
        (rows : List R) (w : Bool) (b : String × RequestBody R),
        b ∈ (BondCalculator.NPVRun creds call rows w).posted →
        ∃ c ∈ chunksOf MAX_ROWS_PER_REQUEST rows,
          b = ("/apicbbvrd", BVRDCalculator.make_request_body creds c (.bond w))) ∧
    (∀ (R E : Type) (creds : Credentials) (call : List R → Except E (List Obj))
        (rows : List R) (w : Bool) (b : String × RequestBody R),
        b ∈ (LegacyBondCalculator.NPVRun creds call rows w).posted →
        b = ("/apicbbvrd", BVRDCalculator.make_request_body creds rows (.bond w))) ∧
    (∀ (R : Type) (creds : Credentials) (call : List R → Except String (List Obj))
        (rows : List R) (w : Bool) (rp : Int) (b : String × RequestBody R),
        b ∈ (SBBCalculator.NPVRun creds call rows w rp).posted →
        ∃ c ∈ chunksOf SBBCalculator.MAX_ROWS_PER_REQUEST rows,
          b = ("/apicbbvrd_estructurado_rwd",
            { auth := none, calculo := c, config := .sbb w rp })) := by
  refine ⟨fun R creds cb cfg => rfl, ?_, ?_, ?_⟩
  · intro R E creds call rows w b hb
    by_cases h0 : rows.length = 0
    · simp [BondCalculator.NPVRun, h0] at hb
    · simp only [BondCalculator.NPVRun, h0, if_neg, if_false] at hb
      exact chunkLoop_posted_mem _ _ _ _ _ _ _ _ _ hb
  · intro R E creds call rows w b hb
    unfold LegacyBondCalculator.NPVRun at hb
    cases h : call rows <;> rw [h] at hb <;> simp at hb <;> exact hb
  · intro R creds call rows w rp b hb
    by_cases h0 : rows.length = 0
    · simp [SBBCalculator.NPVRun, h0] at hb
    · simp only [SBBCalculator.NPVRun, h0, if_neg, if_false] at hb
      exact chunkLoop_posted_mem _ _ _ _ _ _ _ _ _ hb

/-- Witness for C4 (amended) at concrete inputs: a bond chunk body with the
auth block and an SBB chunk body without it. -/
theorem claim_C4_witness :
    (∃ c ∈ chunksOf MAX_ROWS_PER_REQUEST [(0 : Nat)],
      ("/apicbbvrd", BVRDCalculator.make_request_body ⟨"u", "p"⟩ [0] (.bond false))
        = ("/apicbbvrd", BVRDCalculator.make_request_body ⟨"u", "p"⟩ c (.bond false))) ∧
    (∃ c ∈ chunksOf SBBCalculator.MAX_ROWS_PER_REQUEST [(0 : Nat)],
      ("/apicbbvrd_estructurado_rwd",
          ({ auth := none, calculo := [0], config := .sbb false 6 } : RequestBody Nat))
        = ("/apicbbvrd_estructurado_rwd",
          { auth := none, calculo := c, config := .sbb false 6 })) := by
  constructor
  · apply claim_C4_request_body_shape.2.1 Nat Nat ⟨"u", "p"⟩
      (fun _ => (Except.error 0 : Except Nat (List Obj))) [0] false
    have h : (BondCalculator.NPVRun ⟨"u", "p"⟩
        (fun _ => (Except.error 0 : Except Nat (List Obj))) [(0 : Nat)] false).posted
        = [("/apicbbvrd", BVRDCalculator.make_request_body ⟨"u", "p"⟩ [0] (.bond false))] := rfl
    rw [h]
    exact List.mem_singleton_self _
  · apply claim_C4_request_body_shape.2.2.2 Nat ⟨"u", "p"⟩
      (fun _ => (Except.error "e" : Except String (List Obj))) [0] false 6
    have h : (SBBCalculator.NPVRun ⟨"u", "p"⟩
        (fun _ => (Except.error "e" : Except String (List Obj))) [(0 : Nat)] false 6).posted
        = [("/apicbbvrd_estructurado_rwd",
            { auth := none, calculo := [0], config := .sbb false 6 })] := rfl
    rw [h]
    exact List.mem_singleton_self _

theorem LegacyBondCalculator.unpack_response_go_acc (items : List Obj) :
    ∀ vacc cacc : List JVal,
      LegacyBondCalculator.unpack_response_go items vacc cacc
        = (vacc ++ (LegacyBondCalculator.unpack_response_go items [] []).1,
           cacc ++ (LegacyBondCalculator.unpack_response_go items [] []).2) := by
  induction items with
  | nil =>
    intro vacc cacc
    simp [LegacyBondCalculator.unpack_response_go]
  | cons item rest ih =>
    intro vacc cacc
    simp only [LegacyBondCalculator.unpack_response_go]
    rw [ih, ih ([] ++ [Obj.getD item "titulo_calculo" (.obj [])])]
    simp [List.append_assoc]

/-- Counterexample to claim C5 as stated: the claim also covers the legacy
`BondCalculator._unpack_response` (`BVRDCalculator.py` lines 93-120), and
there an item without the `titulo_calculo` key is NOT itself appended as a
valuation row — the loop appends the defaulted empty object
`item.get("titulo_calculo", {})` instead: for the response whose single
item is the dict with one key `"a"`, the valuation table holds the empty
object, not that item. -/
theorem claim_C5_counterexample :
    (LegacyBondCalculator.unpack_response [[("a", JVal.null)]]).1 = [JVal.obj []] ∧
    JVal.obj [] ≠ JVal.obj [("a", JVal.null)] := by
  refine ⟨rfl, by simp⟩

/-- Claim C5 amended: the current `BondCalculator._unpack_response`
(`calculator.py` lines 101-133) classifies each item independently exactly
as claimed — the valuation table is the per-item map (computed sub-object
when the `titulo_calculo` key is present, the item itself otherwise), the
cashflow table is the per-item flattening of tagged flows in response
order, and it is the empty table when no item produced flows; the legacy
variant (`BVRDCalculator.py` lines 93-120) also classifies items
independently but appends the defaulted `titulo_calculo` sub-object (the
empty object when the key is missing) for every item — never the item
itself — with the item's flows tagged with the parent's `codisin`. -/
theorem claim_C5_unpack_classification :
    (∀ response : List Obj,
      (BondCalculator.unpack_response response).1 = response.map specItemValuation ∧
      (BondCalculator.unpack_response response).2 = response.flatMap specItemCashflows ∧
      ((∀ item ∈ response, specItemCashflows item = []) →
        (BondCalculator.unpack_response response).2 = [])) ∧
    (∀ (item : Obj) (rest : List Obj),
      (LegacyBondCalculator.unpack_response (item :: rest)).1
        = Obj.getD item "titulo_calculo" (.obj [])
            :: (LegacyBondCalculator.unpack_response rest).1 ∧
      (LegacyBondCalculator.unpack_response (item :: rest)).2
        = (Obj.getD item "flujos_titulo" (.arr [])).asArr.map
            (tagFlow "codisin"
              (((Obj.getD item "titulo_calculo" (.obj [])).get? "codisin").getD .null))
          ++ (LegacyBondCalculator.unpack_response rest).2) := by
  constructor
  · intro response
    have h := BondCalculator.unpack_response_eq response
    refine ⟨by rw [h], by rw [h], ?_⟩
    intro hall
    rw [h]
    simp only [List.flatMap_eq_nil_iff]
    exact hall
  · intro item rest
    unfold LegacyBondCalculator.unpack_response
    simp only [LegacyBondCalculator.unpack_response_go]
    rw [LegacyBondCalculator.unpack_response_go_acc]
    simp

/-- Witness for C5 (amended): a concrete response whose single legacy-shape
item produces no flows gives the empty cashflow table in the current
variant; the same response in the legacy variant yields the defaulted empty
object as its valuation row. -/
theorem claim_C5_witness :
    (BondCalculator.unpack_response [[("a", JVal.null)]]).2 = [] ∧
    (LegacyBondCalculator.unpack_response [[("a", JVal.null)]]).1
      = Obj.getD [("a", JVal.null)] "titulo_calculo" (.obj [])
          :: (LegacyBondCalculator.unpack_response []).1 :=
  ⟨(claim_C5_unpack_classification.1 [[("a", JVal.null)]]).2.2
    (by
      intro item hitem
      simp only [List.mem_singleton] at hitem
      subst hitem
      rfl),
   (claim_C5_unpack_classification.2 [("a", JVal.null)] []).1⟩

/-- Counterexample to claim C6 as stated: with two cashflow rows matching
the same (correlation id, date) key, the pandas left merge duplicates the
valuation row — it appears twice in the output, not exactly once. -/
theorem claim_C6_counterexample :
    ((BondCalculator.add_coupon_rate
        [{ id_calculo := 1, fecha_liquidacion_str := "d", payload := 0 }]
        [{ id_calculo := 1, fecha_flujo_str := "d", tasa_interes := 5 },
         { id_calculo := 1, fecha_flujo_str := "d", tasa_interes := 7 }]).map Prod.fst).count
        { id_calculo := 1, fecha_liquidacion_str := "d", payload := 0 } = 2 ∧
    ([{ id_calculo := 1, fecha_liquidacion_str := "d", payload := 0 }] : List ValRow).count
        { id_calculo := 1, fecha_liquidacion_str := "d", payload := 0 } = 1 := by
  refine ⟨by decide, by decide⟩

/-- Claim C6 amended: `add_coupon_rate` is a left join on
(id_calculo, fecha_liquidacion_str) = (id_calculo, fecha_flujo_str): no
valuation row is dropped (each appears, with some rate option), an
unmatched valuation row appears with the missing (`none`) rate, and when
every valuation row matches at most one cashflow row each input row appears
exactly once, in the original order.  With duplicate matching keys a row is
repeated once per match (pandas left-merge semantics). -/
theorem claim_C6_left_join (valuation : List ValRow) (cashflows : List CFRow) :
    (∀ v ∈ valuation, ∃ t, (v, t) ∈ BondCalculator.add_coupon_rate valuation cashflows) ∧
    (∀ v ∈ valuation, matchingFlows cashflows v = [] →
        (v, (none : Option CFRow)) ∈ BondCalculator.add_coupon_rate valuation cashflows) ∧
    ((∀ v ∈ valuation, (matchingFlows cashflows v).length ≤ 1) →
        (BondCalculator.add_coupon_rate valuation cashflows).map Prod.fst = valuation) := by
  refine ⟨?_, ?_, ?_⟩
  · intro v hv
    cases h : matchingFlows cashflows v with
    | nil =>
      exact ⟨none, List.mem_flatMap.mpr ⟨v, hv, by simp [h]⟩⟩
    | cons c ms =>
      exact ⟨some c, List.mem_flatMap.mpr ⟨v, hv, by simp [h]⟩⟩
  · intro v hv h
    exact List.mem_flatMap.mpr ⟨v, hv, by simp [h]⟩
  · intro hle
    induction valuation with
    | nil => rfl
    | cons v vs ih =>
      have h1 := hle v (by simp)
      have htail : ∀ u ∈ vs, (matchingFlows cashflows u).length ≤ 1 :=
        fun u hu => hle u (by simp [hu])
      cases h : matchingFlows cashflows v with
      | nil =>
        simp only [BondCalculator.add_coupon_rate, List.flatMap_cons, h, List.map_append]
        simp only [BondCalculator.add_coupon_rate] at ih
        rw [ih htail]
        simp
      | cons c ms =>
        have hms : ms = [] := by
          rw [h] at h1
          simp at h1
          exact h1
        subst hms
        simp only [BondCalculator.add_coupon_rate, List.flatMap_cons, h, List.map_append]
        simp only [BondCalculator.add_coupon_rate] at ih
        rw [ih htail]
        simp

/-- Witness for C6 (amended) at a concrete uniquely-matching input: the
output projects back to exactly the input valuation rows. -/
theorem claim_C6_witness :
    (BondCalculator.add_coupon_rate
        [{ id_calculo := 1, fecha_liquidacion_str := "d", payload := 0 },
         { id_calculo := 2, fecha_liquidacion_str := "e", payload := 1 }]
        [{ id_calculo := 1, fecha_flujo_str := "d", tasa_interes := 5 }]).map Prod.fst
      = [{ id_calculo := 1, fecha_liquidacion_str := "d", payload := 0 },
         { id_calculo := 2, fecha_liquidacion_str := "e", payload := 1 }] :=
  (claim_C6_left_join _ _).2.2 (by decide)

/-- Claim C7: `current_yield` (coupon / dirty price) and
`duration_to_convexity` (modified duration / convexity) never raise on a
zero denominator: a row with denominator zero yields a missing (NaN) cell
via the `replace(0, nan)` guard, and a row with valid numerator and
non-zero denominator yields the exact quotient. -/
theorem claim_C7_zero_guarded_ratios :
    (∀ (cupon precio_sucio : List Cell) (i : Nat) (c p : Rat),
        cupon.get? i = some (some c) → precio_sucio.get? i = some (some p) →
        (BondCalculator.current_yield cupon precio_sucio).get? i
          = some (if p = 0 then none else some (c / p))) ∧
    (∀ (modified_duration convexidad : List Cell) (i : Nat) (m q : Rat),
        modified_duration.get? i = some (some m) → convexidad.get? i = some (some q) →
        (BondCalculator.duration_to_convexity modified_duration convexidad).get? i
          = some (if q = 0 then none else some (m / q))) := by
  constructor
  · intro cupon precio i c p hc hp
    unfold BondCalculator.current_yield
    simp only [List.get?_eq_getElem?] at hc hp ⊢
    simp only [List.getElem?_zipWith, List.getElem?_map, hc, hp]
    by_cases h0 : p = 0 <;> simp [cellDiv, replaceZero, h0]
  · intro md cx i m q hm hq
    unfold BondCalculator.duration_to_convexity
    simp only [List.get?_eq_getElem?] at hm hq ⊢
    simp only [List.getElem?_zipWith, List.getElem?_map, hm, hq]
    by_cases h0 : q = 0 <;> simp [cellDiv, replaceZero, h0]

/-- Witness for C7 at concrete columns: a zero dirty price yields a missing
cell, a zero convexity yields a missing cell. -/
theorem claim_C7_witness :
    (BondCalculator.current_yield [some 3] [some 0]).get? 0
        = some (if (0 : Rat) = 0 then none else some (3 / 0)) ∧
    (BondCalculator.duration_to_convexity [some 2] [some 4]).get? 0
        = some (if (4 : Rat) = 0 then none else some (2 / 4)) :=
  ⟨claim_C7_zero_guarded_ratios.1 [some 3] [some 0] 0 3 0 rfl rfl,
   claim_C7_zero_guarded_ratios.2 [some 2] [some 4] 0 2 4 rfl rfl⟩

/-- Counterexample to claim C8 as stated: for the spec's concrete row the
computed tasa is exactly the stated formula, but the formula's value is
about 0.0158894, more than 0.1 away from the claimed approximation
0.158886. -/
theorem claim_C8_counterexample :
    (SBBCalculator.make_calc_body "t" "n" true 360
        ["MH22034"] [315624.05286] [315206.68158] ["2024-07-19"] [30]).map
        (fun r => r.tasa)
      = [((315624.05286 - 315206.68158) / 315206.68158) * (360 / 30)] ∧
    (1 : Rat) / 10 <
      |((315624.05286 - 315206.68158 : Rat) / 315206.68158) * (360 / 30) - 0.158886| := by
  constructor
  · rfl
  · rw [abs_sub_comm, abs_of_pos] <;> norm_num

/-- Claim C8 amended: every row built by the legacy
`SBBCalculator._make_calc_body` carries
tasa = ((insumo - monto) / monto) * (base_dias / dias); for the spec's
concrete input (input 315624.05286, amount 315206.68158, days 30,
base 360) the computed tasa equals that formula and is approximately
0.0158894 (within 1e-6), not 0.158886. -/
theorem claim_C8_tasa_formula :
    (∀ (input_type amount_type : String) (cesion_cupon : Bool) (base_dias : Rat)
        (isins : List String) (inputs amounts : List Rat)
        (dates : List String) (dayss : List Rat),
        ∀ row ∈ SBBCalculator.make_calc_body input_type amount_type cesion_cupon base_dias
            isins inputs amounts dates dayss,
          row.tasa = ((row.insumo - row.monto) / row.monto) * (row.base_dias / row.dias)) ∧
    ((SBBCalculator.make_calc_body "t" "n" true 360
        ["MH22034"] [315624.05286] [315206.68158] ["2024-07-19"] [30]).map
        (fun r => r.tasa)
      = [((315624.05286 - 315206.68158) / 315206.68158) * (360 / 30)]) ∧
    |((315624.05286 - 315206.68158 : Rat) / 315206.68158) * (360 / 30) - 0.0158894|
      < 1 / 1000000 := by
  refine ⟨?_, rfl, by rw [abs_of_pos] <;> norm_num⟩
  intro input_type amount_type cesion_cupon base_dias isins
  induction isins with
  | nil =>
    intro inputs amounts dates dayss row hrow
    simp [SBBCalculator.make_calc_body] at hrow
  | cons i is' ih =>
    intro inputs amounts dates dayss row hrow
    cases inputs with
    | nil => simp [SBBCalculator.make_calc_body] at hrow
    | cons x xs =>
      cases amounts with
      | nil => simp [SBBCalculator.make_calc_body] at hrow
      | cons m ms =>
        cases dates with
        | nil => simp [SBBCalculator.make_calc_body] at hrow
        | cons d ds =>
          cases dayss with
          | nil => simp [SBBCalculator.make_calc_body] at hrow
          | cons dy dys =>
            rw [SBBCalculator.make_calc_body] at hrow
            rcases List.mem_cons.mp hrow with h | h
            · subst h; rfl
            · exact ih xs ms ds dys row h

/-- Witness for C8 (amended) at the spec's concrete row: its tasa satisfies
the formula. -/
theorem claim_C8_witness :
    ∀ row ∈ SBBCalculator.make_calc_body "t" "n" true 360
        ["MH22034"] [315624.05286] [315206.68158] ["2024-07-19"] [30],
      row.tasa = ((row.insumo - row.monto) / row.monto) * (row.base_dias / row.dias) :=
  claim_C8_tasa_formula.1 "t" "n" true 360
    ["MH22034"] [315624.05286] [315206.68158] ["2024-07-19"] [30]

/-- Counterexample to claim C9 as stated: the legacy
`BondCalculator._unpack_response` given a response item with no
`titulo_calculo` key does not surface any decoding failure — it silently
appends the defaulted empty object as a valuation row and returns a normal
(corrupt) table. -/
theorem claim_C9_counterexample :
    LegacyBondCalculator.unpack_response [([] : Obj)] = ([JVal.obj []], []) := rfl

/-- Claim C9 amended: the current `SBBCalculator._unpack_response` does
surface a decoding failure (`KeyError`) whenever any response item lacks
the `calculo_estructurado` key; the legacy bond `_unpack_response` does
not — an item lacking `titulo_calculo` silently contributes the default
empty object as its valuation row. -/
theorem claim_C9_missing_key_behavior :
    (∀ (response : List Obj),
        (∃ item ∈ response, Obj.get? item "calculo_estructurado" = none) →
        ∃ e, SBBCalculator.unpack_response response = .error e) ∧
    (∀ (item : Obj) (rest : List Obj),
        Obj.get? item "titulo_calculo" = none →
        (LegacyBondCalculator.unpack_response (item :: rest)).1
          = JVal.obj [] :: (LegacyBondCalculator.unpack_response rest).1) := by
  constructor
  · intro response hmiss
    induction response with
    | nil => simp at hmiss
    | cons item rest ih =>
      unfold SBBCalculator.unpack_response
      simp only [List.mapM_cons]
      cases hk : Obj.get? item "calculo_estructurado" with
      | none =>
        exact ⟨"KeyError: calculo_estructurado", by simp [bind, Except.bind]⟩
      | some v =>
        have hmiss' : ∃ it ∈ rest, Obj.get? it "calculo_estructurado" = none := by
          rcases hmiss with ⟨it, hit, hnone⟩
          rcases List.mem_cons.mp hit with h | h
          · subst h; rw [hk] at hnone; exact absurd hnone (by simp)
          · exact ⟨it, h, hnone⟩
        obtain ⟨e, he⟩ := ih hmiss'
        unfold SBBCalculator.unpack_response at he
        refine ⟨e, ?_⟩
        simp only [bind, Except.bind] at he ⊢
        cases hrest : rest.mapM (fun item =>
            match Obj.get? item "calculo_estructurado" with
            | some v => Except.ok v
            | none => Except.error "KeyError: calculo_estructurado") with
        | error e2 =>
          rw [hrest] at he
          simp at he
          simp [he]
        | ok vs =>
          rw [hrest] at he
          simp [pure, Except.pure] at he
  · intro item rest hnone
    unfold LegacyBondCalculator.unpack_response
    simp only [LegacyBondCalculator.unpack_response_go]
    rw [LegacyBondCalculator.unpack_response_go_acc]
    simp [Obj.getD, hnone]

/-- Witness for C9 (amended): a response whose only item is the empty dict
makes the SBB unpack fail, while the legacy bond unpack silently yields the
default row. -/
theorem claim_C9_witness :
    (∃ e, SBBCalculator.unpack_response [([] : Obj)] = .error e) ∧
    (LegacyBondCalculator.unpack_response [([] : Obj), ([] : Obj)]).1
      = JVal.obj [] :: (LegacyBondCalculator.unpack_response [([] : Obj)]).1 :=
  ⟨claim_C9_missing_key_behavior.1 [[]] ⟨[], by simp, rfl⟩,
   claim_C9_missing_key_behavior.2 [] [[]] rfl⟩

/-- Claim C10: `_unpack_response` mutates its input.  Stated over the
explicit post-state functions `unpack_effect_item`: on the with-cashflow
path each flow dict gets the correlation-id key (`id_calculo` current
variant, `codisin` legacy variant) written into it in place with the
parent's id; every other field of the response items is unchanged (and so
are items off that path); the rows returned as the cashflow table are
exactly the tagged flow dicts now visible inside the caller's response
objects; and at a concrete item the stored flows value really changes. -/
theorem claim_C10_unpack_mutation :
    (∀ item : Obj, Obj.hasKey item "titulo_calculo" = false →
        BondCalculator.unpack_effect_item item = item) ∧
    (∀ (item : Obj) (k : String), k ≠ "flujos_titulo" →
        Obj.get? (BondCalculator.unpack_effect_item item) k = Obj.get? item k) ∧
    (∀ (item : Obj) (flows : List JVal),
        Obj.hasKey item "titulo_calculo" = true →
        Obj.get? item "flujos_titulo" = some (.arr flows) →
        Obj.get? (BondCalculator.unpack_effect_item item) "flujos_titulo"
          = some (.arr (flows.map (tagFlow "id_calculo"
              (((Obj.getD item "titulo_calculo" (.obj [])).get? "id_calculo").getD .null))))) ∧
    (∀ (o : Obj) (key : String) (idv : JVal),
        JVal.get? (tagFlow key idv (.obj o)) key = some idv ∧
        ∀ k, k ≠ key → JVal.get? (tagFlow key idv (.obj o)) k = Obj.get? o k) ∧
    (∀ (item : Obj) (flows : List JVal),
        Obj.hasKey item "titulo_calculo" = true →
        Obj.get? item "flujos_titulo" = some (.arr flows) →
        specItemCashflows item
          = JVal.asArr (((Obj.get? (BondCalculator.unpack_effect_item item)
              "flujos_titulo")).getD (.arr []))) ∧
    (∀ response : List Obj,
        (BondCalculator.unpack_response response).2
          = response.flatMap specItemCashflows) ∧
    (∀ (item : Obj) (k : String), k ≠ "flujos_titulo" →
        Obj.get? (LegacyBondCalculator.unpack_effect_item item) k = Obj.get? item k) ∧
    (∀ (item : Obj) (flows : List JVal),
        Obj.get? item "flujos_titulo" = some (.arr flows) →
        Obj.get? (LegacyBondCalculator.unpack_effect_item item) "flujos_titulo"
          = some (.arr (flows.map (tagFlow "codisin"
              (((Obj.getD item "titulo_calculo" (.obj [])).get? "codisin").getD .null))))) ∧
    (Obj.get? (BondCalculator.unpack_effect_item
        [("titulo_calculo", .obj []), ("flujos_titulo", .arr [.obj []])]) "flujos_titulo"
      = some (.arr [.obj [("id_calculo", JVal.null)]]) ∧
     Obj.get? [("titulo_calculo", JVal.obj []), ("flujos_titulo", JVal.arr [JVal.obj []])]
        "flujos_titulo" = some (.arr [.obj []]) ∧
     JVal.arr [JVal.obj [("id_calculo", JVal.null)]] ≠ JVal.arr [JVal.obj []]) := by
  refine ⟨?_, ?_, ?_, ?_, ?_, ?_, ?_, ?_, ?_, ?_, ?_⟩
  · intro item hk
    simp [BondCalculator.unpack_effect_item, hk]
  · intro item k hk
    by_cases hkey : Obj.hasKey item "titulo_calculo"
    · simp only [BondCalculator.unpack_effect_item, hkey, if_true]
      cases hf : Obj.get? item "flujos_titulo" with
      | none => rfl
      | some v =>
        cases v with
        | arr flows => exact Obj.get?_set_ne item "flujos_titulo" k _ hk
        | null => rfl
        | bool b => rfl
        | num q => rfl
        | str s => rfl
        | obj o => rfl
    · simp [BondCalculator.unpack_effect_item, hkey]
  · intro item flows hkey hf
    simp only [BondCalculator.unpack_effect_item, hkey, if_true, hf]
    exact Obj.get?_set_self _ _ _
  · intro o key idv
    exact ⟨Obj.get?_set_self o key idv, fun k hk => Obj.get?_set_ne o key k idv hk⟩
  · intro item flows hkey hf
    simp only [BondCalculator.unpack_effect_item, hkey, if_true, hf]
    rw [Obj.get?_set_self]
    simp [specItemCashflows, hkey, Obj.getD, hf, JVal.asArr]
  · intro response
    exact (BondCalculator.unpack_response_eq response).symm ▸
      congrArg Prod.snd (BondCalculator.unpack_response_eq response)
  · intro item k hk
    simp only [LegacyBondCalculator.unpack_effect_item]
    cases hf : Obj.get? item "flujos_titulo" with
    | none => rfl
    | some v =>
      cases v with
      | arr flows => exact Obj.get?_set_ne item "flujos_titulo" k _ hk
      | null => rfl
      | bool b => rfl
      | num q => rfl
      | str s => rfl
      | obj o => rfl
  · intro item flows hf
    simp only [LegacyBondCalculator.unpack_effect_item, hf]
    exact Obj.get?_set_self _ _ _
  · rfl
  · rfl
  · simp

/-- Witness for C10 at a concrete keyed item with one flow dict. -/
theorem claim_C10_witness :
    Obj.get? (BondCalculator.unpack_effect_item
        [("titulo_calculo", .obj [("id_calculo", JVal.num 9)]),
         ("flujos_titulo", .arr [.obj [("fecha", JVal.str "2024-01-01")]])]) "flujos_titulo"
      = some (.arr ([JVal.obj [("fecha", JVal.str "2024-01-01")]].map (tagFlow "id_calculo"
          (((Obj.getD [("titulo_calculo", JVal.obj [("id_calculo", JVal.num 9)]),
              ("flujos_titulo", JVal.arr [JVal.obj [("fecha", JVal.str "2024-01-01")]])]
              "titulo_calculo" (.obj [])).get? "id_calculo").getD .null)))) :=
  claim_C10_unpack_mutation.2.2.1
    [("titulo_calculo", .obj [("id_calculo", JVal.num 9)]),
     ("flujos_titulo", .arr [.obj [("fecha", JVal.str "2024-01-01")]])]
    [.obj [("fecha", JVal.str "2024-01-01")]] rfl rfl

/-- Witness for C3 (amended) at concrete types and credentials. -/
theorem claim_C3_witness :
    BondCalculator.NPVRun ⟨"u", "p"⟩
        (fun _ => (Except.ok [] : Except String (List Obj))) ([] : List Nat) false
      = { posted := [], log := [.warningEmptyInput], result := .ok ([], []) } :=
  claim_C3_empty_input_behavior.1 Nat String ⟨"u", "p"⟩ _ false
